import Mathlib

/-!
Shallow embedding of the Bitcoin script interpreter
(`src/script_interpreter/src/main.rs`): opcode registry, codec
(`bytes_to_asm` / `asm_to_bytes`), classifier (`detect_type`), stack-machine
executor (`Script::run`) and validity check (`Script::validate`).

Conventions:
* Bytes are `Nat`; byte vectors are `List Nat`.  Values produced by the hex
  decoder are `< 256` by construction.
* The Rust stack is a `Vec<Vec<u8>>` pushed/popped at the *end* (the top).
  We represent a stack as a `List (List Nat)` whose *head* is the top, so
  `Vec::push` is cons, `Vec::pop` removes the head and `Vec::last` reads it.
* `anyhow` errors (recoverable `Result::Err`) and Rust panics (`unwrap()`
  on `None`, out-of-bounds indexing, `usize` underflow in a debug build)
  are modelled by distinct error constructors.
* `hash160` (SHA-256 then RIPEMD-160, from the external `sha2` and `ripemd`
  crates) is an external collaborator per the spec; the executor is
  parameterised by it as `H`.
-/

/-- Value of one hex digit, both cases accepted (the `hex` crate's decoder
subtracts the code of the range start, exactly as here). -/
def hexDigitVal (c : Char) : Option Nat :=
  if 48 ≤ c.toNat ∧ c.toNat ≤ 57 then some (c.toNat - 48)
  else if 97 ≤ c.toNat ∧ c.toNat ≤ 102 then some (c.toNat - 97 + 10)
  else if 65 ≤ c.toNat ∧ c.toNat ≤ 70 then some (c.toNat - 65 + 10)
  else none

/-- `hex::decode` on a character list: consumes pairs of hex digits; fails on
an odd length or a non-hex character. -/
def hexPairsToBytes : List Char → Option (List Nat)
  | [] => some []
  | [_] => none
  | c1 :: c2 :: rest =>
    match hexDigitVal c1, hexDigitVal c2, hexPairsToBytes rest with
    | some h, some l, some bs => some ((16 * h + l) :: bs)
    | _, _, _ => none

/-- `hex::decode` on a string. -/
def hexDecode (s : String) : Option (List Nat) :=
  hexPairsToBytes s.data

/-- Lowercase hex digit for a nibble (the `hex` crate's encoding table). -/
def hexDigitChar (n : Nat) : Char :=
  match n with
  | 0 => '0' | 1 => '1' | 2 => '2' | 3 => '3' | 4 => '4'
  | 5 => '5' | 6 => '6' | 7 => '7' | 8 => '8' | 9 => '9'
  | 10 => 'a' | 11 => 'b' | 12 => 'c' | 13 => 'd' | 14 => 'e'
  | _ => 'f'

/-- `hex::encode` on a byte list, as a character list: high nibble then low
nibble of every byte, lowercase. -/
def hexChars : List Nat → List Char
  | [] => []
  | b :: bs => hexDigitChar (b / 16) :: hexDigitChar (b % 16) :: hexChars bs

/-- `hex::encode` on a byte list. -/
def hexEncode (bs : List Nat) : String :=
  String.mk (hexChars bs)

/-- The `ScriptType` enum. -/
inductive ScriptType where
  | P2PK | P2PKH | P2SH | P2MS | Return | Unknown
deriving DecidableEq, Repr

/-- The forward opcode registry `OPCODE_MAP` built by `init_opcodes`
(byte value to mnemonic). -/
def OPCODE_MAP (b : Nat) : Option String :=
  if b = 0x00 then some "OP_0"
  else if b = 0x51 then some "OP_1"
  else if b = 0x52 then some "OP_2"
  else if b = 0x53 then some "OP_3"
  else if b = 0x54 then some "OP_4"
  else if b = 0x55 then some "OP_5"
  else if b = 0x56 then some "OP_6"
  else if b = 0x57 then some "OP_7"
  else if b = 0x58 then some "OP_8"
  else if b = 0x59 then some "OP_9"
  else if b = 0x5a then some "OP_10"
  else if b = 0x5b then some "OP_11"
  else if b = 0x5c then some "OP_12"
  else if b = 0x5d then some "OP_13"
  else if b = 0x5e then some "OP_14"
  else if b = 0x5f then some "OP_15"
  else if b = 0x60 then some "OP_16"
  else if b = 0x76 then some "OP_DUP"
  else if b = 0x87 then some "OP_EQUAL"
  else if b = 0x88 then some "OP_EQUALVERIFY"
  else if b = 0xac then some "OP_CHECKSIG"
  else if b = 0xae then some "OP_CHECKMULTISIG"
  else if b = 0xa9 then some "OP_HASH160"
  else if b = 0x6a then some "OP_RETURN"
  else none

/-- The reverse registry `REVERSE_OPCODE_MAP` (mnemonic to byte): the forward
map inverted, plus the two reverse-only aliases `OP_FALSE` and `OP_TRUE`. -/
def REVERSE_OPCODE_MAP (s : String) : Option Nat :=
  if s = "OP_0" then some 0x00
  else if s = "OP_1" then some 0x51
  else if s = "OP_2" then some 0x52
  else if s = "OP_3" then some 0x53
  else if s = "OP_4" then some 0x54
  else if s = "OP_5" then some 0x55
  else if s = "OP_6" then some 0x56
  else if s = "OP_7" then some 0x57
  else if s = "OP_8" then some 0x58
  else if s = "OP_9" then some 0x59
  else if s = "OP_10" then some 0x5a
  else if s = "OP_11" then some 0x5b
  else if s = "OP_12" then some 0x5c
  else if s = "OP_13" then some 0x5d
  else if s = "OP_14" then some 0x5e
  else if s = "OP_15" then some 0x5f
  else if s = "OP_16" then some 0x60
  else if s = "OP_DUP" then some 0x76
  else if s = "OP_EQUAL" then some 0x87
  else if s = "OP_EQUALVERIFY" then some 0x88
  else if s = "OP_CHECKSIG" then some 0xac
  else if s = "OP_CHECKMULTISIG" then some 0xae
  else if s = "OP_HASH160" then some 0xa9
  else if s = "OP_RETURN" then some 0x6a
  else if s = "OP_FALSE" then some 0x00
  else if s = "OP_TRUE" then some 0x51
  else none

/-- `Script::detect_type`.  The Rust `match` arms spell patterns with
identifiers (`op_dup`, `op_ch`, …) that *bind* fresh variables instead of
comparing against the equally named locals above the `match`; every such
position is therefore a wildcard, and the first three arms match on length
alone.  The guard arm (last token `OP_CHECKMULTISIG`) and the `OP_RETURN`
arm are consequently reached only for lengths other than 2, 5 and 3, and the
`OP_RETURN` arm matches any remaining non-empty sequence. -/
def detect_type (asm : List String) : ScriptType :=
  match asm with
  | [_, _] => ScriptType.P2PK
  | [_, _, _, _, _] => ScriptType.P2PKH
  | [_, _, _] => ScriptType.P2SH
  | rest =>
    if rest.getLast? = some "OP_CHECKMULTISIG" then ScriptType.P2MS
    else
      match rest with
      | _ :: _ => ScriptType.Return
      | [] => ScriptType.Unknown

/-- Errors of `Script::asm_to_bytes` (all raised through `anyhow`). -/
inductive CodecErr where
  | hexErr
  | invalidOpN
  | dataTooLarge
deriving DecidableEq, Repr

/-- `part.strip_prefix("OP_").unwrap_or("")`: the remainder after a literal
`OP_` at the front, or the empty string. -/
def stripOp (s : String) : String :=
  match s.data with
  | 'O' :: 'P' :: '_' :: rest => String.mk rest
  | _ => ""

/-- `str::parse::<u8>`: an optional leading `+`, then one or more ASCII
digits, value at most 255 (larger values overflow and fail). -/
def parseU8 (s : String) : Option Nat :=
  let cs := match s.data with
    | '+' :: rest => rest
    | cs => cs
  if cs = [] then none
  else if cs.all Char.isDigit then
    let v := cs.foldl (fun a c => a * 10 + (c.toNat - 48)) 0
    if v ≤ 255 then some v else none
  else none

/-- `Script::asm_to_bytes`: per token, try the reverse opcode map; else try
`OP_<n>` with `n ≤ 16`; else treat the token as hex push data, emitting a
single length-prefix byte for payloads under 0x4c, the two-byte `0x4c, len`
prefix for payloads up to 0xff, and failing beyond that. -/
def asm_to_bytes : List String → Except CodecErr (List Nat)
  | [] => Except.ok []
  | part :: rest =>
    match REVERSE_OPCODE_MAP part with
    | some code =>
      match asm_to_bytes rest with
      | Except.ok bs => Except.ok (code :: bs)
      | Except.error e => Except.error e
    | none =>
      match parseU8 (stripOp part) with
      | some n =>
        if n ≤ 16 then
          match asm_to_bytes rest with
          | Except.ok bs => Except.ok ((0x50 + n) :: bs)
          | Except.error e => Except.error e
        else Except.error CodecErr.invalidOpN
      | none =>
        match hexDecode part with
        | some data =>
          if data.length < 0x4c then
            match asm_to_bytes rest with
            | Except.ok bs => Except.ok (data.length :: (data ++ bs))
            | Except.error e => Except.error e
          else if data.length ≤ 0xff then
            match asm_to_bytes rest with
            | Except.ok bs => Except.ok (0x4c :: data.length :: (data ++ bs))
            | Except.error e => Except.error e
          else Except.error CodecErr.dataTooLarge
        | none => Except.error CodecErr.hexErr

deriving instance DecidableEq for Except

/-- Fuel-indexed body of `Script::bytes_to_asm` (each iteration consumes at
least one byte, so fuel equal to the byte count always suffices; the
`0, _ :: _` case is unreachable at that fuel). -/
def bytesToAsmFuel : Nat → List Nat → List String
  | _, [] => []
  | 0, _ :: _ => []
  | fuel + 1, op :: rest =>
    if 0x01 ≤ op ∧ op ≤ 0x4b then
      if op ≤ rest.length then
        hexEncode (rest.take op) :: bytesToAsmFuel fuel (rest.drop op)
      else []
    else
      match OPCODE_MAP op with
      | some name => name :: bytesToAsmFuel fuel rest
      | none => hexEncode [op] :: bytesToAsmFuel fuel rest

/-- `Script::bytes_to_asm`: a byte in `[0x01, 0x4b]` is a length prefix whose
payload becomes one hex push-data token (a truncated payload stops decoding
early without error); a byte in the forward opcode map becomes its mnemonic;
any other byte becomes its two-digit lowercase hex form. -/
def bytes_to_asm (bs : List Nat) : List String :=
  bytesToAsmFuel bs.length bs

/-- The stack: Rust `Vec<Vec<u8>>` with the top at the `Vec` end; here the
list head is the top. -/
def Stack : Type := List (List Nat)

/-- Errors of `Script::run`: `opErr` for `anyhow` errors raised by the
opcode arms (`bail!` / `ok_or_else`), `hexErr` for a failed `hex_decode` of a
push token, and `crash` for a Rust panic (`unwrap()` on `None`, indexing an
empty element, or `usize` underflow in a debug build). -/
inductive RunErr where
  | opErr (msg : String)
  | hexErr
  | crash
deriving DecidableEq, Repr

/-- The fall-through branch of the `Script::run` loop: a token that was not
executed as a modeled opcode is hex-decoded and pushed as data. -/
def pushData (op : String) (stack : List (List Nat)) :
    Except RunErr (List (List Nat)) :=
  match hexDecode op with
  | none => Except.error RunErr.hexErr
  | some data => Except.ok (data :: stack)

/-- One iteration of the `Script::run` loop on token `op`: look the token up
in the reverse opcode map and run the matching arm; a recognized byte outside
the seven modeled opcodes, or an unrecognized token, falls through to the
push-data branch.  `H` is the external `hash160`. -/
def execTok (H : List Nat → List Nat) (op : String)
    (stack : List (List Nat)) : Except RunErr (List (List Nat)) :=
  match REVERSE_OPCODE_MAP op with
  | some code =>
    if code = 0x76 then
      match stack with
      | [] => Except.error (RunErr.opErr "OP_DUP on empty stack")
      | top :: rest => Except.ok (top :: top :: rest)
    else if code = 0xa9 then
      match stack with
      | [] => Except.error (RunErr.opErr "OP_HASH160 on empty stack")
      | elem :: rest => Except.ok (H elem :: rest)
    else if code = 0x87 then
      match stack with
      | b :: a :: rest => Except.ok ((if a = b then [1] else []) :: rest)
      | _ => Except.error RunErr.crash
    else if code = 0x88 then
      match stack with
      | b :: a :: rest =>
        if a = b then Except.ok rest
        else Except.error (RunErr.opErr "OP_EQUALVERIFY failed")
      | _ => Except.error RunErr.crash
    else if code = 0xac then
      Except.ok ([1] :: stack.drop 2)
    else if code = 0xae then
      match stack with
      | [] => Except.error RunErr.crash
      | nElt :: s1 =>
        match nElt with
        | [] => Except.error RunErr.crash
        | nb :: _ =>
          if nb < 0x50 then Except.error RunErr.crash
          else
            match s1.drop (nb - 0x50) with
            | [] => Except.error RunErr.crash
            | mElt :: s3 =>
              match mElt with
              | [] => Except.error RunErr.crash
              | mb :: _ =>
                if mb < 0x50 then Except.error RunErr.crash
                else Except.ok ([1] :: ((s3.drop (mb - 0x50)).drop 1))
    else if code = 0x6a then
      Except.error (RunErr.opErr "OP_RETURN makes script invalid")
    else pushData op stack
  | none => pushData op stack

/-- The `Script::run` loop over the remaining instruction list: consume the
first token, execute it, and continue; an error aborts the run. -/
def runTok (H : List Nat → List Nat) :
    List String → List (List Nat) → Except RunErr (List (List Nat))
  | [], stack => Except.ok stack
  | op :: rest, stack =>
    match execTok H op stack with
    | Except.ok stack2 => runTok H rest stack2
    | Except.error e => Except.error e

/-- `Script::run`: concatenate the scripts' token sequences (the Rust
`flat_map` over `s.asm`) and interpret them against an initially empty
stack. -/
def Script.run (H : List Nat → List Nat) (asms : List (List String)) :
    Except RunErr (List (List Nat)) :=
  runTok H (asms.foldr (fun a b => a ++ b) []) []

/-- Fuel-indexed variant of the `Script::run` loop: `none` when the fuel runs
out before the instruction list is exhausted. -/
def runTokFuel (H : List Nat → List Nat) :
    Nat → List String → List (List Nat) →
    Option (Except RunErr (List (List Nat)))
  | _, [], stack => some (Except.ok stack)
  | 0, _ :: _, _ => none
  | fuel + 1, op :: rest, stack =>
    match execTok H op stack with
    | Except.ok stack2 => runTokFuel H fuel rest stack2
    | Except.error e => some (Except.error e)

/-- `Script::validate`: the stack is non-empty and its top (`Vec::last`,
here the head) is a non-empty byte vector. -/
def validate (stack : List (List Nat)) : Bool :=
  match stack with
  | [] => false
  | top :: _ => !top.isEmpty

/-- The tokens that decode from the opcode bytes of the forward registry:
the canonical mnemonic spellings (the two reverse-only aliases `OP_FALSE`
and `OP_TRUE` are not among them). -/
def canonicalMnemonics : List String :=
  ["OP_0", "OP_1", "OP_2", "OP_3", "OP_4", "OP_5", "OP_6", "OP_7", "OP_8",
   "OP_9", "OP_10", "OP_11", "OP_12", "OP_13", "OP_14", "OP_15", "OP_16",
   "OP_DUP", "OP_EQUAL", "OP_EQUALVERIFY", "OP_CHECKSIG",
   "OP_CHECKMULTISIG", "OP_HASH160", "OP_RETURN"]

/-- The byte of a canonical mnemonic, read off the reverse registry. -/
def canonCode (t : String) : Nat :=
  (REVERSE_OPCODE_MAP t).getD 0

/-- The recognized mnemonics whose bytes are not among the seven modeled
opcodes: the numeric constants and the two aliases. -/
def unmodeledMnemonics : List String :=
  ["OP_0", "OP_1", "OP_2", "OP_3", "OP_4", "OP_5", "OP_6", "OP_7", "OP_8",
   "OP_9", "OP_10", "OP_11", "OP_12", "OP_13", "OP_14", "OP_15", "OP_16",
   "OP_FALSE", "OP_TRUE"]

/-- Token equivalence of the round-trip property: equal outright, or equal
as decoded byte content (push-data tokens may change hex case). -/
def TokEquiv (a b : String) : Prop :=
  a = b ∨ ∃ bs, hexDecode a = some bs ∧ hexDecode b = some bs

/-- A syntactically valid token whose encoding the decoder can reproduce: a
canonical mnemonic, or hex push data of 1 to 75 bytes (a single-byte length
prefix). -/
def GoodTok (t : String) : Prop :=
  t ∈ canonicalMnemonics ∨
    ∃ bs, hexDecode t = some bs ∧ 1 ≤ bs.length ∧ bs.length ≤ 75

/-! ## Supporting lemmas -/

theorem hexDigitVal_lt (c : Char) (v : Nat) (h : hexDigitVal c = some v) :
    v < 16 := by
  unfold hexDigitVal at h
  split_ifs at h <;> simp_all <;> omega

theorem hexDigitVal_hexDigitChar (n : Nat) (h : n < 16) :
    hexDigitVal (hexDigitChar n) = some n := by
  interval_cases n <;> rfl

theorem hexPairs_hexChars (bs : List Nat) (h : ∀ b ∈ bs, b < 256) :
    hexPairsToBytes (hexChars bs) = some bs := by
  induction bs with
  | nil => rfl
  | cons b rest ih =>
    have hb : b < 256 := h b (by simp)
    have h1 : hexDigitVal (hexDigitChar (b / 16)) = some (b / 16) :=
      hexDigitVal_hexDigitChar _ (Nat.div_lt_of_lt_mul (by omega))
    have h2 : hexDigitVal (hexDigitChar (b % 16)) = some (b % 16) :=
      hexDigitVal_hexDigitChar _ (Nat.mod_lt _ (by omega))
    have h3 := ih (fun x hx => h x (by simp [hx]))
    rw [hexChars]
    unfold hexPairsToBytes
    rw [h1, h2, h3]
    have hbeq : 16 * (b / 16) + b % 16 = b := Nat.div_add_mod b 16
    show some ((16 * (b / 16) + b % 16) :: rest) = some (b :: rest)
    rw [hbeq]

theorem hexDecode_hexEncode (bs : List Nat) (h : ∀ b ∈ bs, b < 256) :
    hexDecode (hexEncode bs) = some bs :=
  hexPairs_hexChars bs h

theorem hexPairsToBytes_lt :
    ∀ (cs : List Char) (bs : List Nat), hexPairsToBytes cs = some bs →
      ∀ b ∈ bs, b < 256
  | [], bs, h => by
    unfold hexPairsToBytes at h
    cases h
    intro b hb
    cases hb
  | [c], bs, h => by
    unfold hexPairsToBytes at h
    cases h
  | c1 :: c2 :: rest, bs, h => by
    unfold hexPairsToBytes at h
    split at h
    · next v1 v2 bs2 hv1 hv2 hrec =>
      cases h
      intro b hb
      rcases List.mem_cons.mp hb with rfl | hmem
      · have l1 := hexDigitVal_lt _ _ hv1
        have l2 := hexDigitVal_lt _ _ hv2
        omega
      · exact hexPairsToBytes_lt rest _ hrec b hmem
    · cases h

theorem hexDecode_lt (s : String) (bs : List Nat)
    (h : hexDecode s = some bs) : ∀ b ∈ bs, b < 256 :=
  hexPairsToBytes_lt s.data bs h

theorem hexPairsToBytes_cons_none (c1 c2 : Char) (rest : List Char)
    (h : hexDigitVal c1 = none) :
    hexPairsToBytes (c1 :: c2 :: rest) = none := by
  unfold hexPairsToBytes
  rw [h]

theorem hexDecode_some_REVERSE_none (s : String) (bs : List Nat)
    (h : hexDecode s = some bs) : REVERSE_OPCODE_MAP s = none := by
  have key : ∀ t : String, hexDecode t = none → ¬s = t := by
    intro t ht hst
    rw [hst, ht] at h
    cases h
  rw [REVERSE_OPCODE_MAP]
  rw [if_neg (key "OP_0" (by decide))]
  rw [if_neg (key "OP_1" (by decide))]
  rw [if_neg (key "OP_2" (by decide))]
  rw [if_neg (key "OP_3" (by decide))]
  rw [if_neg (key "OP_4" (by decide))]
  rw [if_neg (key "OP_5" (by decide))]
  rw [if_neg (key "OP_6" (by decide))]
  rw [if_neg (key "OP_7" (by decide))]
  rw [if_neg (key "OP_8" (by decide))]
  rw [if_neg (key "OP_9" (by decide))]
  rw [if_neg (key "OP_10" (by decide))]
  rw [if_neg (key "OP_11" (by decide))]
  rw [if_neg (key "OP_12" (by decide))]
  rw [if_neg (key "OP_13" (by decide))]
  rw [if_neg (key "OP_14" (by decide))]
  rw [if_neg (key "OP_15" (by decide))]
  rw [if_neg (key "OP_16" (by decide))]
  rw [if_neg (key "OP_DUP" (by decide))]
  rw [if_neg (key "OP_EQUAL" (by decide))]
  rw [if_neg (key "OP_EQUALVERIFY" (by decide))]
  rw [if_neg (key "OP_CHECKSIG" (by decide))]
  rw [if_neg (key "OP_CHECKMULTISIG" (by decide))]
  rw [if_neg (key "OP_HASH160" (by decide))]
  rw [if_neg (key "OP_RETURN" (by decide))]
  rw [if_neg (key "OP_FALSE" (by decide))]
  rw [if_neg (key "OP_TRUE" (by decide))]

theorem stripOp_of_hexDecode (s : String) (bs : List Nat)
    (h : hexDecode s = some bs) : stripOp s = "" := by
  unfold hexDecode at h
  unfold stripOp
  split
  · next rest heq =>
    rw [heq, hexPairsToBytes_cons_none _ _ _ (by decide)] at h
    cases h
  · rfl

theorem parseU8_empty : parseU8 "" = none := rfl

theorem execTok_push (H : List Nat → List Nat) (t : String) (bs : List Nat)
    (stack : List (List Nat)) (h : hexDecode t = some bs) :
    execTok H t stack = Except.ok (bs :: stack) := by
  rw [execTok.eq_def, hexDecode_some_REVERSE_none t bs h]
  rw [pushData, h]

theorem execTok_hexEncode (H : List Nat → List Nat) (bs : List Nat)
    (stack : List (List Nat)) (h : ∀ b ∈ bs, b < 256) :
    execTok H (hexEncode bs) stack = Except.ok (bs :: stack) :=
  execTok_push H _ bs stack (hexDecode_hexEncode bs h)

theorem runTok_cons_ok (H : List Nat → List Nat) (op : String)
    (rest : List String) (s s2 : List (List Nat))
    (h : execTok H op s = Except.ok s2) :
    runTok H (op :: rest) s = runTok H rest s2 := by
  rw [runTok, h]

theorem execTok_dup (H : List Nat → List Nat) (top : List Nat)
    (rest : List (List Nat)) :
    execTok H "OP_DUP" (top :: rest) = Except.ok (top :: top :: rest) := rfl

theorem execTok_hash160 (H : List Nat → List Nat) (e : List Nat)
    (rest : List (List Nat)) :
    execTok H "OP_HASH160" (e :: rest) = Except.ok (H e :: rest) := rfl

theorem execTok_equalverify_eq (H : List Nat → List Nat) (x : List Nat)
    (rest : List (List Nat)) :
    execTok H "OP_EQUALVERIFY" (x :: x :: rest) = Except.ok rest := by
  have h88 : REVERSE_OPCODE_MAP "OP_EQUALVERIFY" = some 0x88 := by decide
  simp [execTok, h88]

theorem execTok_checksig (H : List Nat → List Nat) (stack : List (List Nat)) :
    execTok H "OP_CHECKSIG" stack = Except.ok ([1] :: stack.drop 2) := rfl

theorem execTok_checkmultisig (H : List Nat → List Nat)
    (s1 s2 k1 k2 k3 : List Nat) (low : List (List Nat)) :
    execTok H "OP_CHECKMULTISIG"
      ([0x52] :: s1 :: s2 :: [0x53] :: k1 :: k2 :: k3 :: low) =
      Except.ok ([1] :: low.drop 1) := rfl

theorem bytesToAsmFuel_congr :
    ∀ (f g : Nat) (l : List Nat), l.length ≤ f → l.length ≤ g →
      bytesToAsmFuel f l = bytesToAsmFuel g l := by
  intro f
  induction f with
  | zero =>
    intro g l hf _
    have : l = [] := List.length_eq_zero.mp (Nat.le_zero.mp hf)
    subst this
    cases g <;> rfl
  | succ f ih =>
    intro g l hf hg
    cases l with
    | nil => cases g <;> rfl
    | cons op rest =>
      cases g with
      | zero => simp at hg
      | succ g =>
        simp only [List.length_cons, Nat.succ_le_succ_iff] at hf hg
        rw [bytesToAsmFuel, bytesToAsmFuel]
        by_cases hp : 0x01 ≤ op ∧ op ≤ 0x4b
        · simp only [if_pos hp]
          by_cases hq : op ≤ rest.length
          · simp only [if_pos hq]
            have hd : (rest.drop op).length ≤ rest.length := by
              simp [List.length_drop]
            rw [ih g (rest.drop op) (le_trans hd hf) (le_trans hd hg)]
          · simp only [if_neg hq]
        · simp only [if_neg hp]
          cases hm : OPCODE_MAP op with
          | some name => rw [ih g rest hf hg]
          | none => rw [ih g rest hf hg]

theorem bytes_to_asm_cons_op (c : Nat) (name : String) (bs : List Nat)
    (h1 : ¬(0x01 ≤ c ∧ c ≤ 0x4b)) (h2 : OPCODE_MAP c = some name) :
    bytes_to_asm (c :: bs) = name :: bytes_to_asm bs := by
  rw [bytes_to_asm, List.length_cons, bytesToAsmFuel, if_neg h1, h2]
  rfl

theorem bytes_to_asm_cons_push (data bs : List Nat)
    (h1 : 1 ≤ data.length) (h2 : data.length ≤ 0x4b) :
    bytes_to_asm (data.length :: (data ++ bs)) =
      hexEncode data :: bytes_to_asm bs := by
  rw [bytes_to_asm, List.length_cons, bytesToAsmFuel, if_pos ⟨h1, h2⟩,
    if_pos (by simp : data.length ≤ (data ++ bs).length),
    List.take_left, List.drop_left]
  rw [bytes_to_asm]
  rw [bytesToAsmFuel_congr ((data ++ bs).length) bs.length bs (by simp) le_rfl]

theorem asm_to_bytes_cons_op (t : String) (c : Nat) (rest : List String)
    (bs : List Nat) (h : REVERSE_OPCODE_MAP t = some c)
    (hr : asm_to_bytes rest = Except.ok bs) :
    asm_to_bytes (t :: rest) = Except.ok (c :: bs) := by
  rw [asm_to_bytes, h, hr]

theorem asm_to_bytes_cons_push (t : String) (data : List Nat)
    (rest : List String) (bs : List Nat)
    (h : hexDecode t = some data) (hlen : data.length < 0x4c)
    (hr : asm_to_bytes rest = Except.ok bs) :
    asm_to_bytes (t :: rest) = Except.ok (data.length :: (data ++ bs)) := by
  rw [asm_to_bytes, hexDecode_some_REVERSE_none t data h,
    stripOp_of_hexDecode t data h, parseU8_empty, h]
  simp only [if_pos hlen, hr]

theorem canonical_code (t : String) (hmem : t ∈ canonicalMnemonics) :
    REVERSE_OPCODE_MAP t = some (canonCode t) ∧
    ¬(0x01 ≤ canonCode t ∧ canonCode t ≤ 0x4b) ∧
    OPCODE_MAP (canonCode t) = some t := by
  fin_cases hmem <;> exact (by decide)

/-! ## Claims -/

/-- C1: evaluation of the classifier at a failing input.  The claim says a
five-token sequence is tagged pay-to-public-key-hash only when positions
1, 2, 4 and 5 are `OP_DUP`, `OP_HASH160`, `OP_EQUALVERIFY` and `OP_CHECKSIG`;
the code tags the five-token sequence of five `OP_RETURN` tokens P2PKH even
though none of those positions carries the required mnemonic, because the
match arm binds instead of comparing. -/
theorem claim_C1_eval :
    detect_type
      ["OP_RETURN", "OP_RETURN", "OP_RETURN", "OP_RETURN", "OP_RETURN"] =
      ScriptType.P2PKH ∧
    ("OP_RETURN" : String) ≠ "OP_DUP" ∧ ("OP_RETURN" : String) ≠ "OP_HASH160" ∧
    ("OP_RETURN" : String) ≠ "OP_EQUALVERIFY" ∧
    ("OP_RETURN" : String) ≠ "OP_CHECKSIG" := by decide

/-- C2: evaluation of the classifier at a failing input.  The claim says every
sequence ending in `OP_CHECKMULTISIG` is tagged multi-signature, in particular
at lengths 2, 3 and 5; the code tags the two-token sequence
`[OP_1, OP_CHECKMULTISIG]` P2PK, because the length-2 arm matches first. -/
theorem claim_C2_eval :
    ["OP_1", "OP_CHECKMULTISIG"].getLast? = some "OP_CHECKMULTISIG" ∧
    detect_type ["OP_1", "OP_CHECKMULTISIG"] = ScriptType.P2PK ∧
    ScriptType.P2PK ≠ ScriptType.P2MS := by decide

/-- C3 counterexample: running the checkmultisig scenario (required count 2,
two signatures, total count 3, three keys) with the extra push omitted still
succeeds with final stack `[[1]]` instead of failing with an underflow: the
final extra `Vec::pop` ignores its result, and popping an empty `Vec` returns
`None` without any error. -/
theorem claim_C3_cex :
    runTok (fun _ => [])
      ["cc", "bb", "aa", "53", "22", "11", "52", "OP_CHECKMULTISIG"] [] =
      Except.ok [[1]] := by decide

/-- C3 (amended): checkmultisig with required count 2, two signature pushes,
total count 3, three key pushes, and one extra arbitrary push discards the
extra push and produces the final stack `[[1]]`; with the extra push omitted
the run also succeeds with `[[1]]` (the extra discard is a silent no-op on an
empty stack), not with an underflow failure. -/
theorem claim_C3_amended (H : List Nat → List Nat)
    (sig1 sig2 k1 k2 k3 extra : List Nat)
    (hs1 : ∀ b ∈ sig1, b < 256) (hs2 : ∀ b ∈ sig2, b < 256)
    (hk1 : ∀ b ∈ k1, b < 256) (hk2 : ∀ b ∈ k2, b < 256)
    (hk3 : ∀ b ∈ k3, b < 256) (hex : ∀ b ∈ extra, b < 256) :
    runTok H [hexEncode extra, hexEncode k3, hexEncode k2, hexEncode k1, "53",
      hexEncode sig2, hexEncode sig1, "52", "OP_CHECKMULTISIG"] [] =
      Except.ok [[1]] ∧
    runTok H [hexEncode k3, hexEncode k2, hexEncode k1, "53",
      hexEncode sig2, hexEncode sig1, "52", "OP_CHECKMULTISIG"] [] =
      Except.ok [[1]] := by
  constructor
  · rw [runTok_cons_ok _ _ _ _ _ (execTok_hexEncode H extra [] hex)]
    rw [runTok_cons_ok _ _ _ _ _ (execTok_hexEncode H k3 _ hk3)]
    rw [runTok_cons_ok _ _ _ _ _ (execTok_hexEncode H k2 _ hk2)]
    rw [runTok_cons_ok _ _ _ _ _ (execTok_hexEncode H k1 _ hk1)]
    rw [runTok_cons_ok _ _ _ _ _ (execTok_push H "53" [0x53] _ (by decide))]
    rw [runTok_cons_ok _ _ _ _ _ (execTok_hexEncode H sig2 _ hs2)]
    rw [runTok_cons_ok _ _ _ _ _ (execTok_hexEncode H sig1 _ hs1)]
    rw [runTok_cons_ok _ _ _ _ _ (execTok_push H "52" [0x52] _ (by decide))]
    rw [runTok_cons_ok _ _ _ _ _
      (execTok_checkmultisig H sig1 sig2 k1 k2 k3 [extra])]
    rfl
  · rw [runTok_cons_ok _ _ _ _ _ (execTok_hexEncode H k3 [] hk3)]
    rw [runTok_cons_ok _ _ _ _ _ (execTok_hexEncode H k2 _ hk2)]
    rw [runTok_cons_ok _ _ _ _ _ (execTok_hexEncode H k1 _ hk1)]
    rw [runTok_cons_ok _ _ _ _ _ (execTok_push H "53" [0x53] _ (by decide))]
    rw [runTok_cons_ok _ _ _ _ _ (execTok_hexEncode H sig2 _ hs2)]
    rw [runTok_cons_ok _ _ _ _ _ (execTok_hexEncode H sig1 _ hs1)]
    rw [runTok_cons_ok _ _ _ _ _ (execTok_push H "52" [0x52] _ (by decide))]
    rw [runTok_cons_ok _ _ _ _ _
      (execTok_checkmultisig H sig1 sig2 k1 k2 k3 [])]
    rfl

/-- C3 witness: the amended statement at concrete one-byte signatures, keys
and extra push. -/
theorem claim_C3_amended_witness :
    runTok (fun _ => []) [hexEncode [0xff], hexEncode [0xcc], hexEncode [0xbb],
      hexEncode [0xaa], "53", hexEncode [0x22], hexEncode [0x11], "52",
      "OP_CHECKMULTISIG"] [] = Except.ok [[1]] ∧
    runTok (fun _ => []) [hexEncode [0xcc], hexEncode [0xbb],
      hexEncode [0xaa], "53", hexEncode [0x22], hexEncode [0x11], "52",
      "OP_CHECKMULTISIG"] [] = Except.ok [[1]] :=
  claim_C3_amended (fun _ => []) [0x11] [0x22] [0xaa] [0xbb] [0xcc] [0xff]
    (by decide) (by decide) (by decide) (by decide) (by decide) (by decide)

/-- C4 counterexample: a 76-byte push-data token (encoded with the two-byte
0x4c prefix) does not round-trip: the decoder has no 0x4c handling, so the
prefix bytes come back as two literal `4c` tokens and the decoded sequence is
not equivalent to the original one-token sequence. -/
theorem claim_C4_cex :
    asm_to_bytes [String.mk (List.replicate 152 '0')] =
      Except.ok (0x4c :: 0x4c :: List.replicate 76 0) ∧
    ¬ List.Forall₂ TokEquiv (bytes_to_asm (0x4c :: 0x4c :: List.replicate 76 0))
      [String.mk (List.replicate 152 '0')] := by
  refine ⟨by decide, fun hf => ?_⟩
  have hlen := hf.length_eq
  rw [show (bytes_to_asm (0x4c :: 0x4c :: List.replicate 76 0)).length = 78
    from by decide] at hlen
  simp at hlen

/-- C4 (amended): encode-then-decode reproduces an equivalent token sequence
(push-data tokens equal as byte content) for every sequence whose tokens are
canonical mnemonics or hex push data of 1 to 75 bytes, i.e. pushes encoded
with a single length-prefix byte. -/
theorem claim_C4_roundtrip (asm : List String) (h : ∀ t ∈ asm, GoodTok t) :
    ∃ bs, asm_to_bytes asm = Except.ok bs ∧
      List.Forall₂ TokEquiv (bytes_to_asm bs) asm := by
  induction asm with
  | nil => exact ⟨[], rfl, List.Forall₂.nil⟩
  | cons t rest ih =>
    obtain ⟨bs, hb, hf⟩ := ih (fun x hx => h x (List.mem_cons_of_mem _ hx))
    rcases h t (List.mem_cons_self _ _) with hmem | ⟨data, hdec, hge, hle⟩
    · obtain ⟨hrev, hnot, hfwd⟩ := canonical_code t hmem
      refine ⟨canonCode t :: bs, asm_to_bytes_cons_op t _ rest bs hrev hb, ?_⟩
      rw [bytes_to_asm_cons_op _ _ _ hnot hfwd]
      exact List.Forall₂.cons (Or.inl rfl) hf
    · have hlt : ∀ b ∈ data, b < 256 := hexDecode_lt t data hdec
      refine ⟨data.length :: (data ++ bs),
        asm_to_bytes_cons_push t data rest bs hdec (by omega) hb, ?_⟩
      rw [bytes_to_asm_cons_push data bs hge (by omega)]
      exact List.Forall₂.cons
        (Or.inr ⟨data, hexDecode_hexEncode data hlt, hdec⟩) hf

/-- C4 witness: the amended round trip at a concrete mnemonic plus an
uppercase one-byte push. -/
theorem claim_C4_roundtrip_witness :
    ∃ bs, asm_to_bytes ["OP_DUP", "AB"] = Except.ok bs ∧
      List.Forall₂ TokEquiv (bytes_to_asm bs) ["OP_DUP", "AB"] :=
  claim_C4_roundtrip ["OP_DUP", "AB"] (by
    intro t ht
    rcases (by simpa using ht : t = "OP_DUP" ∨ t = "AB") with rfl | rfl
    · exact Or.inl (by decide)
    · exact Or.inr ⟨[0xab], by decide, by decide, by decide⟩)

/-- C5 counterexample: executing the numeric-constant mnemonic `OP_1` is not
a no-op: the run aborts with a hex-decode error (the token falls through to
the push-data branch, and `OP_1` is not valid hex). -/
theorem claim_C5_cex :
    runTok (fun _ => []) ["OP_1"] [] = Except.error RunErr.hexErr := by decide

/-- C5 (amended): every recognized mnemonic whose byte is not one of the
seven modeled opcodes (`OP_0`, `OP_1` … `OP_16`, `OP_FALSE`, `OP_TRUE`)
falls through to the push-data branch and fails with a hex-decode error, on
every stack; it is not a stack-preserving no-op. -/
theorem claim_C5_amended (H : List Nat → List Nat) (stack : List (List Nat))
    (t : String) (ht : t ∈ unmodeledMnemonics) :
    execTok H t stack = Except.error RunErr.hexErr := by
  fin_cases ht <;> rfl

/-- C5 witness: the amended statement at `OP_16` on a one-element stack. -/
theorem claim_C5_amended_witness :
    execTok (fun _ => []) "OP_16" [[2]] = Except.error RunErr.hexErr :=
  claim_C5_amended (fun _ => []) [[2]] "OP_16" (by decide)

/-- C6 counterexample: `OP_EQUAL` on a one-element stack fails with a panic
(`unwrap()` of `None`), a crash, not with a recoverable StackUnderflow error
value. -/
theorem claim_C6_cex :
    execTok (fun _ => []) "OP_EQUAL" [[1]] = Except.error RunErr.crash := by
  decide

/-- C6 (amended): on a stack with fewer than two elements `OP_EQUAL` and
`OP_EQUALVERIFY` crash with a panic (`unwrap()` on a missing element) rather
than reporting a recoverable error; the opcodes that do report a recoverable
underflow error value are `OP_DUP` and `OP_HASH160` on the empty stack. -/
theorem claim_C6_amended (H : List Nat → List Nat) (stack : List (List Nat))
    (h : stack.length < 2) :
    (execTok H "OP_EQUAL" stack = Except.error RunErr.crash ∧
     execTok H "OP_EQUALVERIFY" stack = Except.error RunErr.crash) ∧
    execTok H "OP_DUP" [] = Except.error (RunErr.opErr "OP_DUP on empty stack") ∧
    execTok H "OP_HASH160" [] =
      Except.error (RunErr.opErr "OP_HASH160 on empty stack") := by
  have hcase : stack = [] ∨ ∃ a, stack = [a] := by
    rcases stack with _ | ⟨a, _ | ⟨b, r⟩⟩
    · exact Or.inl rfl
    · exact Or.inr ⟨a, rfl⟩
    · simp at h; omega
  rcases hcase with rfl | ⟨a, rfl⟩ <;> exact ⟨⟨rfl, rfl⟩, rfl, rfl⟩

/-- C6 witness: the amended statement on a one-element stack. -/
theorem claim_C6_amended_witness :
    (execTok (fun _ => []) "OP_EQUAL" [[5]] = Except.error RunErr.crash ∧
     execTok (fun _ => []) "OP_EQUALVERIFY" [[5]] =
       Except.error RunErr.crash) ∧
    execTok (fun _ => []) "OP_DUP" [] =
      Except.error (RunErr.opErr "OP_DUP on empty stack") ∧
    execTok (fun _ => []) "OP_HASH160" [] =
      Except.error (RunErr.opErr "OP_HASH160 on empty stack") :=
  claim_C6_amended (fun _ => []) [[5]] (by decide)

/-- C7: executing `OP_CHECKSIG` never errors on any stack, including stacks
with fewer than two elements: it removes up to two elements without
validating them and leaves the one-byte true value `[1]` as the new top. -/
theorem claim_C7 (H : List Nat → List Nat) (stack : List (List Nat)) :
    execTok H "OP_CHECKSIG" stack = Except.ok ([1] :: stack.drop 2) := rfl

/-- C8: for the pay-to-public-key-hash scenario — locking tokens `OP_DUP`,
`OP_HASH160`, the 20-byte hash, `OP_EQUALVERIFY`, `OP_CHECKSIG`, unlocking
tokens a signature push then a public-key push, with `hash160` of the key
equal to the embedded hash — the classifier tags the locking script P2PKH,
running unlocking then locking from an empty stack yields exactly `[[1]]`,
and the validity evaluator accepts. -/
theorem claim_C8 (H : List Nat → List Nat) (sig pub hash : List Nat)
    (hsig : ∀ b ∈ sig, b < 256) (hpub : ∀ b ∈ pub, b < 256)
    (hhash : ∀ b ∈ hash, b < 256) (_hlen : hash.length = 20)
    (hmatch : H pub = hash) :
    detect_type ["OP_DUP", "OP_HASH160", hexEncode hash, "OP_EQUALVERIFY",
      "OP_CHECKSIG"] = ScriptType.P2PKH ∧
    Script.run H [[hexEncode sig, hexEncode pub],
      ["OP_DUP", "OP_HASH160", hexEncode hash, "OP_EQUALVERIFY",
       "OP_CHECKSIG"]] = Except.ok [[1]] ∧
    validate [[1]] = true := by
  refine ⟨rfl, ?_, rfl⟩
  show runTok H [hexEncode sig, hexEncode pub, "OP_DUP", "OP_HASH160",
    hexEncode hash, "OP_EQUALVERIFY", "OP_CHECKSIG"] [] = Except.ok [[1]]
  rw [runTok_cons_ok _ _ _ _ _ (execTok_hexEncode H sig [] hsig)]
  rw [runTok_cons_ok _ _ _ _ _ (execTok_hexEncode H pub [sig] hpub)]
  rw [runTok_cons_ok _ _ _ _ _ (execTok_dup H pub [sig])]
  rw [runTok_cons_ok _ _ _ _ _ (execTok_hash160 H pub [pub, sig])]
  rw [hmatch]
  rw [runTok_cons_ok _ _ _ _ _ (execTok_hexEncode H hash [hash, pub, sig] hhash)]
  rw [runTok_cons_ok _ _ _ _ _ (execTok_equalverify_eq H hash [pub, sig])]
  rw [runTok_cons_ok _ _ _ _ _ (execTok_checksig H [pub, sig])]
  rfl

/-- C8 witness: the scenario at a concrete signature, key and 20-byte hash,
with the external hash160 returning that hash. -/
theorem claim_C8_witness :
    detect_type ["OP_DUP", "OP_HASH160", hexEncode (List.replicate 20 7),
      "OP_EQUALVERIFY", "OP_CHECKSIG"] = ScriptType.P2PKH ∧
    Script.run (fun _ => List.replicate 20 7) [[hexEncode [0x11], hexEncode [0x22]],
      ["OP_DUP", "OP_HASH160", hexEncode (List.replicate 20 7), "OP_EQUALVERIFY",
       "OP_CHECKSIG"]] = Except.ok [[1]] ∧
    validate [[1]] = true :=
  claim_C8 (fun _ => List.replicate 20 7) [0x11] [0x22] (List.replicate 20 7)
    (by decide) (by decide) (by decide) (by decide) rfl

/-- C9: the validity evaluator returns true exactly when the stack is
non-empty and its top (most recently pushed) element is a non-empty byte
vector; nothing else influences the verdict. -/
theorem claim_C9 (stack : List (List Nat)) :
    validate stack = true ↔ ∃ top rest, stack = top :: rest ∧ top ≠ [] := by
  cases stack <;> simp [validate, List.isEmpty_iff, List.cons.injEq]

/-- C10: the executor terminates on every instruction list — each iteration
consumes exactly the first token and no opcode appends tokens, so fuel equal
to the token count always suffices for the fuel-indexed loop to reach the
same result as the loop itself. -/
theorem claim_C10 (H : List Nat → List Nat) :
    ∀ (l : List String) (fuel : Nat) (s : List (List Nat)), l.length ≤ fuel →
      runTokFuel H fuel l s = some (runTok H l s)
  | [], fuel, s, _ => by cases fuel <;> rfl
  | op :: rest, fuel, s, h => by
    cases fuel with
    | zero => simp at h
    | succ fuel =>
      rw [runTokFuel, runTok]
      cases hE : execTok H op s with
      | ok s2 => exact claim_C10 H rest fuel s2 (by simpa using h)
      | error e => rfl

/-- C10 witness: fuel 1 suffices for a one-token script. -/
theorem claim_C10_witness :
    runTokFuel (fun _ => []) 1 ["OP_CHECKSIG"] [] =
      some (runTok (fun _ => []) ["OP_CHECKSIG"] []) :=
  claim_C10 (fun _ => []) ["OP_CHECKSIG"] 1 [] (by decide)
